import Mathlib

/-!
Verification of the yellowstone-vixen chainstack source and stream processor.

Shallow embedding of:
- `crates/chainstack-grpc-source/src/redis_stream.rs` (classifier, stream
  writer, batch flushing, Redis XADD command construction),
- `crates/chainstack-grpc-source/src/lib.rs` (`with_redis_streaming`,
  `stream_to_redis_async`),
- `crates/chainstack-grpc-source/src/filter_api.rs` (filter validation,
  create/list endpoints),
- `solana-stream-processor/src/handlers/stream_handler.rs` (`publish_data`,
  `get_data_by_slot_range`).

Machine integers are modelled as `Nat`/`Int` (no arithmetic in the verified
paths overflows), byte vectors and base58 strings as `String`, hash maps as
association lists, and the Redis / broadcast I/O boundary as explicit
function parameters (`commit`, `send_result`).
-/

namespace Vixen

/-! ## Geyser update model (fields used by `redis_stream.rs`) -/

/-- Inner account data of a `SubscribeUpdateAccount` (`acc.account`). -/
structure AccountData where
  pubkey : String
  owner : String
  lamports : Nat
  executable : Bool
  rent_epoch : Nat
  data : List Nat
deriving DecidableEq

/-- `SubscribeUpdateAccount`: the account payload is optional. -/
structure SubscribeUpdateAccount where
  account : Option AccountData
deriving DecidableEq

/-- Transaction status meta (`meta.err`, `meta.fee`), err modelled as an
opaque string. -/
structure TransactionMeta where
  err : Option String
  fee : Nat
deriving DecidableEq

/-- Inner transaction info (`tx.transaction`): signature, meta and the
referenced account keys, exactly the fields `extract_stream_data` reads. -/
structure TransactionData where
  signature : Option String
  meta : Option TransactionMeta
  account_keys : List String
deriving DecidableEq

/-- `SubscribeUpdateTransaction` with the fields read by the source. -/
structure SubscribeUpdateTransaction where
  transaction : Option TransactionData
  slot : Nat
  block_time : Option Int
deriving DecidableEq

/-- Shared shape of `SubscribeUpdateBlock` and `SubscribeUpdateBlockMeta`:
the source reads the same six fields from both. -/
structure SubscribeUpdateBlockData where
  slot : Nat
  blockhash : String
  parent_slot : Nat
  parent_blockhash : String
  block_time : Option Int
  executed_transaction_count : Nat
deriving DecidableEq

/-- The `update_oneof` variants. `other` stands for the remaining proto
variants (slot, ping, pong, entry), all handled by the wildcard arm. -/
inductive UpdateOneof where
  | account (acc : SubscribeUpdateAccount)
  | transaction (tx : SubscribeUpdateTransaction)
  | block (blk : SubscribeUpdateBlockData)
  | blockMeta (meta : SubscribeUpdateBlockData)
  | other
deriving DecidableEq

/-- `SubscribeUpdate`: the oneof is optional. -/
structure SubscribeUpdate where
  update_oneof : Option UpdateOneof
deriving DecidableEq

/-! ## Stream data model (`redis_stream.rs` structs) -/

/-- `AccountInfo` extracted from account updates. -/
structure AccountInfo where
  pubkey : String
  owner : String
  lamports : Nat
  executable : Bool
  rent_epoch : Nat
  data_size : Nat
deriving DecidableEq

/-- `TransactionInfo` extracted from transaction updates. -/
structure TransactionInfo where
  signature : String
  slot : Nat
  block_time : Option Int
  fee : Nat
  accounts : List String
  program_ids : List String
  success : Bool
  error : Option String
deriving DecidableEq

/-- `BlockInfo` extracted from block / block-meta updates. -/
structure BlockInfo where
  slot : Nat
  block_hash : String
  parent_slot : Nat
  parent_hash : String
  block_time : Option Int
  transaction_count : Nat
deriving DecidableEq

/-- `StreamData`: classified update with type tag and serialized payload. -/
structure StreamData where
  update_type : String
  payload : String
  account : Option AccountInfo
  transaction : Option TransactionInfo
  block : Option BlockInfo
deriving DecidableEq

/-- `StreamMetadata` attached to every entry by `write_update`. -/
structure StreamMetadata where
  source : String
  filter_id : String
  processing_time_ns : Nat
  partition_key : Option String
  tags : List (String × String)
deriving DecidableEq

/-- `StreamEntry` buffered by a stream writer. -/
structure StreamEntry where
  id : String
  data : StreamData
  timestamp : Int
  metadata : StreamMetadata
deriving DecidableEq

/-- `RedisStreamManager::extract_stream_data`, with `serde_json::to_string`
modelled as an abstract `serialize` parameter.  The `format!` applied to a
transaction error is modelled as the identity on the opaque error string. -/
def extract_stream_data (serialize : SubscribeUpdate → String)
    (update : SubscribeUpdate) : StreamData :=
  let payload := serialize update
  match update.update_oneof with
  | some (.account acc) =>
      { update_type := "account"
        payload := payload
        account := some
          { pubkey := (acc.account.map AccountData.pubkey).getD ""
            owner := (acc.account.map AccountData.owner).getD ""
            lamports := (acc.account.map AccountData.lamports).getD 0
            executable := (acc.account.map AccountData.executable).getD false
            rent_epoch := (acc.account.map AccountData.rent_epoch).getD 0
            data_size := (acc.account.map (fun a => a.data.length)).getD 0 }
        transaction := none
        block := none }
  | some (.transaction tx) =>
      { update_type := "transaction"
        payload := payload
        account := none
        transaction := some
          { signature := (tx.transaction.bind TransactionData.signature).getD ""
            slot := tx.slot
            block_time := tx.block_time
            fee := ((tx.transaction.bind TransactionData.meta).map TransactionMeta.fee).getD 0
            accounts := (tx.transaction.map TransactionData.account_keys).getD []
            program_ids := []
            success := ((tx.transaction.bind TransactionData.meta).map
              (fun m => m.err.isNone)).getD false
            error := (tx.transaction.bind TransactionData.meta).bind TransactionMeta.err }
        block := none }
  | some (.block blk) =>
      { update_type := "block"
        payload := payload
        account := none
        transaction := none
        block := some
          { slot := blk.slot
            block_hash := blk.blockhash
            parent_slot := blk.parent_slot
            parent_hash := blk.parent_blockhash
            block_time := blk.block_time
            transaction_count := blk.executed_transaction_count } }
  | some (.blockMeta meta) =>
      { update_type := "block_meta"
        payload := payload
        account := none
        transaction := none
        block := some
          { slot := meta.slot
            block_hash := meta.blockhash
            parent_slot := meta.parent_slot
            parent_hash := meta.parent_blockhash
            block_time := meta.block_time
            transaction_count := meta.executed_transaction_count } }
  | _ =>
      { update_type := "unknown"
        payload := payload
        account := none
        transaction := none
        block := none }

/-- `RedisStreamManager::determine_stream_name`. -/
def determine_stream_name (data : StreamData) : String :=
  if data.update_type = "account" then "accounts"
  else if data.update_type = "transaction" then "transactions"
  else if data.update_type = "block" ∨ data.update_type = "block_meta" then "blocks"
  else "unknown"

/-- `RedisStreamManager::calculate_partition_key`. -/
def calculate_partition_key (data : StreamData) : Option String :=
  if data.update_type = "account" then data.account.map AccountInfo.pubkey
  else if data.update_type = "transaction" then
    data.transaction.map TransactionInfo.signature
  else if data.update_type = "block" ∨ data.update_type = "block_meta" then
    data.block.map (fun b => toString b.slot)
  else none

/-! ## Stream writer and manager (`redis_stream.rs`) -/

/-- `PartitionStrategy` from `config.rs`. -/
inductive PartitionStrategy where
  | single
  | byAccount
  | byProgram
  | bySignature
  | custom (s : String)
deriving DecidableEq

/-- `StreamConfig` from `config.rs`. -/
structure StreamConfig where
  name : String
  max_length : Option Nat
  retention_seconds : Option Nat
  partition_strategy : PartitionStrategy
deriving DecidableEq

/-- `StreamWriter` state. -/
structure StreamWriter where
  stream_name : String
  partition_strategy : PartitionStrategy
  max_length : Option Nat
  batch_buffer : List StreamEntry
  batch_size : Nat
deriving DecidableEq

/-- `StreamWriter::new`: the batch size is hard-coded to 1000 in the source
(a TODO notes it is not yet configurable). -/
def StreamWriter.make (config : StreamConfig) : StreamWriter :=
  { stream_name := config.name
    partition_strategy := config.partition_strategy
    max_length := config.max_length
    batch_buffer := []
    batch_size := 1000 }

/-- `StreamWriter::add_entry` (pushes onto the batch buffer). -/
def StreamWriter.add_entry (w : StreamWriter) (entry : StreamEntry) : StreamWriter :=
  { w with batch_buffer := w.batch_buffer ++ [entry] }

/-- `StreamWriter::should_flush`: true iff the buffer has reached
`batch_size`.  This is the complete flush condition in the source — it
reads no clock and no timeout. -/
def StreamWriter.should_flush (w : StreamWriter) : Bool :=
  w.batch_buffer.length ≥ w.batch_size

/-- The argument list of one `XADD` command built by
`StreamWriter::flush_to_redis`: stream name, an optional
`MAXLEN ~ max_len` triple, then the entry id and the three field
key/value pairs `data`, `timestamp`, `metadata`. -/
def xadd_args (stream_name : String) (max_length : Option Nat)
    (entry : StreamEntry) (data_json metadata_json : String) : List String :=
  [stream_name]
    ++ (match max_length with
        | some n => ["MAXLEN", "~", toString n]
        | none => [])
    ++ [entry.id, "data", data_json, "timestamp", toString entry.timestamp,
        "metadata", metadata_json]

/-- The pipelined command batch `flush_to_redis` sends: one `XADD` per
buffered entry, with the entry's data and metadata serialized by the
abstract serializers. -/
def StreamWriter.flush_cmds (w : StreamWriter)
    (ser_data : StreamData → String) (ser_meta : StreamMetadata → String) :
    List (List String) :=
  w.batch_buffer.map fun e =>
    xadd_args w.stream_name w.max_length e (ser_data e.data) (ser_meta e.metadata)

/-- `StreamWriter::flush_to_redis`.  The Redis round-trip is the `commit`
parameter.  On success the buffer is cleared; on failure the error is
returned via `?` and the buffer is left untouched (the `clear` comes after
the query in the source).  There is no retry loop and no drop counter. -/
def StreamWriter.flush_to_redis (w : StreamWriter)
    (ser_data : StreamData → String) (ser_meta : StreamMetadata → String)
    (commit : List (List String) → Except String Unit) :
    Except String Unit × StreamWriter :=
  if w.batch_buffer.isEmpty then (Except.ok (), w)
  else
    match commit (w.flush_cmds ser_data ser_meta) with
    | Except.ok () => (Except.ok (), { w with batch_buffer := [] })
    | Except.error e => (Except.error e, w)

/-- Environment of a `write_update` call: the serializers, the Redis
commit, and the nondeterministic inputs (`uuid::Uuid::new_v4()` and
`chrono::Utc::now().timestamp_millis()`). -/
structure WriteEnv where
  serialize : SubscribeUpdate → String
  ser_data : StreamData → String
  ser_meta : StreamMetadata → String
  commit : List (List String) → Except String Unit
  uuid : String
  now_ms : Int

/-- Entry id built by `write_update`:
`format!("{}:{}", uuid::Uuid::new_v4(), timestamp_millis())` — the UUID
comes first and the millisecond timestamp second. -/
def make_entry_id (uuid : String) (now_ms : Int) : String :=
  uuid ++ ":" ++ toString now_ms

/-- The `StreamEntry` constructed by `RedisStreamManager::write_update`
for an update (the two `Utc::now()` calls are modelled as the same
instant `env.now_ms`). -/
def write_entry (env : WriteEnv) (update : SubscribeUpdate)
    (filter_id : String) (processing_time_ns : Nat) : StreamEntry :=
  let stream_data := extract_stream_data env.serialize update
  { id := make_entry_id env.uuid env.now_ms
    data := stream_data
    timestamp := env.now_ms
    metadata :=
      { source := "chainstack-grpc"
        filter_id := filter_id
        processing_time_ns := processing_time_ns
        partition_key := calculate_partition_key stream_data
        tags := [] } }

/-- `RedisStreamManager` state: the `stream_writers` hash map as an
association list. -/
structure RedisStreamManager where
  stream_writers : List (String × StreamWriter)
deriving DecidableEq

/-- `stream_writers.get_mut(name)` (read part). -/
def lookupWriter (ws : List (String × StreamWriter)) (name : String) :
    Option StreamWriter :=
  (ws.find? fun p => p.1 == name).map Prod.snd

/-- `stream_writers.get_mut(name)` (write-back part): replace the writer
stored under `name`. -/
def updateWriter (ws : List (String × StreamWriter)) (name : String)
    (w : StreamWriter) : List (String × StreamWriter) :=
  ws.map fun p => if p.1 == name then (name, w) else p

/-- `RedisStreamManager::flush_stream`: flush the named writer if it exists
and its buffer is non-empty; a commit failure propagates via `?` and the
manager keeps the unflushed writer state. -/
def RedisStreamManager.flush_stream (m : RedisStreamManager) (env : WriteEnv)
    (stream_name : String) : Except String Unit × RedisStreamManager :=
  match lookupWriter m.stream_writers stream_name with
  | some w =>
      if w.batch_buffer.isEmpty then (Except.ok (), m)
      else
        match w.flush_to_redis env.ser_data env.ser_meta env.commit with
        | (Except.ok (), w') =>
            (Except.ok (), ⟨updateWriter m.stream_writers stream_name w'⟩)
        | (Except.error e, _) => (Except.error e, m)
  | none => (Except.ok (), m)

/-- `RedisStreamManager::write_update`: classify the update, build the
entry, route it to the writer named by `determine_stream_name`, buffer it,
and flush when `should_flush` reports the batch full.  When no writer is
configured for the stream name the update is dropped with a warning. -/
def RedisStreamManager.write_update (m : RedisStreamManager) (env : WriteEnv)
    (update : SubscribeUpdate) (filter_id : String)
    (processing_time_ns : Nat) : Except String Unit × RedisStreamManager :=
  let stream_data := extract_stream_data env.serialize update
  let entry := write_entry env update filter_id processing_time_ns
  let stream_name := determine_stream_name stream_data
  match lookupWriter m.stream_writers stream_name with
  | some w =>
      let w' := w.add_entry entry
      let m' : RedisStreamManager := ⟨updateWriter m.stream_writers stream_name w'⟩
      if w'.should_flush then m'.flush_stream env stream_name
      else (Except.ok (), m')
  | none => (Except.ok (), m)

/-- Sequential processing of a list of updates through `write_update`,
as done by the ingestion loop (result codes discarded by the driver). -/
def process_updates (env : WriteEnv) (filter_id : String) :
    RedisStreamManager → List SubscribeUpdate → RedisStreamManager
  | m, [] => m
  | m, u :: us =>
      process_updates env filter_id
        (RedisStreamManager.write_update m env u filter_id 0).2 us

/-! ## Direct Redis path (`lib.rs`) -/

/-- `RedisConfig` from `lib.rs`. -/
structure RedisConfig where
  url : String
  stream_name : String
  max_stream_length : Option Nat
  batch_size : Nat
  write_timeout_ms : Nat
deriving DecidableEq

/-- The `RedisConfig` installed by
`ChainstackGrpcSource::with_redis_streaming`. -/
def with_redis_streaming (redis_url stream_name : String) : RedisConfig :=
  { url := redis_url
    stream_name := stream_name
    max_stream_length := some 1000000
    batch_size := 100
    write_timeout_ms := 1000 }

/-- The argument list of the single `XADD` issued by
`stream_to_redis_async` for one update.  `MAXLEN ~ N` is always present,
with `N = max_stream_length.unwrap_or(1_000_000)`. -/
def stream_to_redis_args (config : RedisConfig) (serialized stream_id : String)
    (now_ms : Int) : List String :=
  [config.stream_name, "MAXLEN", "~",
   toString (config.max_stream_length.getD 1000000),
   stream_id, "data", serialized, "timestamp", toString now_ms]

/-- `stream_to_redis_async`: no command when Redis is not configured,
otherwise one `XADD` with id `{uuid}:{ms}`. -/
def stream_to_redis_async (redis_config : Option RedisConfig)
    (serialized uuid : String) (now_ms : Int) : List (List String) :=
  match redis_config with
  | some config =>
      [stream_to_redis_args config serialized (make_entry_id uuid now_ms) now_ms]
  | none => []

/-! ## Filter API (`filter_api.rs`) -/

/-- `DynamicAccountFilter` (the fields read by `validate_filter`; the
range and exclusion fields are never read by validation or conversion to
routing and are omitted). -/
structure DynamicAccountFilter where
  accounts : List String
  owners : List String
deriving DecidableEq

/-- `DynamicTransactionFilter` (validation-relevant fields). -/
structure DynamicTransactionFilter where
  accounts_include : List String
  accounts_required : List String
deriving DecidableEq

/-- `DynamicFilter` (validation-relevant fields; `name`, `enabled`,
timestamps and metadata are carried opaquely by the endpoints and omitted
here). -/
structure DynamicFilter where
  id : String
  account_filter : Option DynamicAccountFilter
  transaction_filter : Option DynamicTransactionFilter
deriving DecidableEq

/-- All identifier strings of a filter parse as pubkeys
(`s.parse::<Pubkey>()` modelled by the abstract `parse_pubkey`). -/
def filter_ids_valid (parse_pubkey : String → Bool) (f : DynamicFilter) : Bool :=
  (match f.account_filter with
   | some af => af.accounts.all parse_pubkey && af.owners.all parse_pubkey
   | none => true)
  && (match f.transaction_filter with
      | some tf => tf.accounts_include.all parse_pubkey
          && tf.accounts_required.all parse_pubkey
      | none => true)

/-- `FilterManager::validate_filter`: rejects an empty filter id, then
rejects on the first identifier that fails pubkey parsing (the individual
parse errors are collapsed into one message).  Nothing else is checked —
in particular a filter whose identifier sets are all empty validates. -/
def validate_filter (parse_pubkey : String → Bool) (f : DynamicFilter) :
    Except String Unit :=
  if f.id.isEmpty then Except.error "Filter ID cannot be empty"
  else if filter_ids_valid parse_pubkey f then Except.ok ()
  else Except.error "invalid pubkey"

/-- `HashMap::insert` on the association list of active filters. -/
def insertFilter (filters : List (String × DynamicFilter)) (f : DynamicFilter) :
    List (String × DynamicFilter) :=
  if (filters.find? fun p => p.1 == f.id).isSome then
    filters.map fun p => if p.1 == f.id then (f.id, f) else p
  else filters ++ [(f.id, f)]

/-- `FilterManager::add_filter`: validate, then install into
`active_filters` (the update callbacks only log and never fail the call). -/
def add_filter (parse_pubkey : String → Bool)
    (active_filters : List (String × DynamicFilter)) (f : DynamicFilter) :
    Except String (List (String × DynamicFilter)) :=
  match validate_filter parse_pubkey f with
  | Except.ok () => Except.ok (insertFilter active_filters f)
  | Except.error e => Except.error e

/-- The `POST /filters` route handler: on `add_filter` error it rejects
with `InternalServerError`, which `handle_rejection` renders as HTTP 500.
The error code is the resulting HTTP status. -/
def create_filter (parse_pubkey : String → Bool)
    (active_filters : List (String × DynamicFilter)) (f : DynamicFilter) :
    Except Nat (List (String × DynamicFilter)) :=
  match add_filter parse_pubkey active_filters f with
  | Except.ok m => Except.ok m
  | Except.error _ => Except.error 500

/-- The width of `usize` on the 64-bit targets the service runs on:
the pagination arithmetic of the list-filters route wraps modulo this. -/
def USIZE : Nat := 18446744073709551616

/-- The pagination of the `GET /filters` route: `start`/`end` clamping and
the slice `filters[start..end]`.  `page` and `per_page` are `usize` values
parsed from the query string, so `(page - 1) * per_page` and
`start + per_page` wrap modulo `2^64` (release semantics; a debug build
panics at the wrap itself), and the slice expression panics when
`start > end` — modelled as `none`.  Otherwise returns the page and the
total count. -/
def list_filters_page (filters : List DynamicFilter) (page per_page : Nat) :
    Option (List DynamicFilter × Nat) :=
  let total := filters.length
  let start := min (((page - 1) * per_page) % USIZE) total
  let stop := min ((start + per_page) % USIZE) total
  if start ≤ stop then some ((filters.drop start).take (stop - start), total)
  else none

/-! ## Stream handler (`stream_handler.rs`) -/

/-- The two metrics counters touched by `publish_data`. -/
structure Metrics where
  stream_events_sent : Nat
  stream_errors : Nat
deriving DecidableEq

/-- `StreamHandler::publish_data`: when `receiver_count() > 0`, send on the
broadcast channel and bump the matching counter; with zero subscribers
nothing at all happens.  The broadcast send outcome is the abstract
`send_result`; the returned flag records whether a send was attempted. -/
def publish_data (subscriber_count : Nat) (send_result : Except String Nat)
    (m : Metrics) : Metrics × Bool :=
  if subscriber_count > 0 then
    match send_result with
    | Except.ok _ =>
        ({ m with stream_events_sent := m.stream_events_sent + 1 }, true)
    | Except.error _ =>
        ({ m with stream_errors := m.stream_errors + 1 }, true)
  else (m, false)

/-- Outcome of `get_data_by_slot_range`: either an immediate
`400 Bad Request` (no store query issued) or a store query with the
effective limit. -/
inductive SlotRangeResult where
  | badRequest
  | query (program collection_type : String) (min_slot max_slot limit : Nat)
deriving DecidableEq

/-- `get_data_by_slot_range`: validate the collection type, then the slot
range, then cap the limit at 10,000 (default 1000). -/
def get_data_by_slot_range (program collection_type : String)
    (min_slot max_slot : Nat) (limit : Option Nat) : SlotRangeResult :=
  if collection_type ≠ "accounts" ∧ collection_type ≠ "instructions" then
    SlotRangeResult.badRequest
  else if min_slot > max_slot then SlotRangeResult.badRequest
  else
    SlotRangeResult.query program collection_type min_slot max_slot
      (min (limit.getD 1000) 10000)

/-! ## Specification-side flush condition (for refinement comparison) -/

/-- Modelled from the spec: "commit when either the batch has reached
`batch_size` OR `batch_timeout` (default 100 ms) has elapsed since the
first queued record."  Stated over the buffered count and the milliseconds
elapsed since the first record of the current batch was queued.  This is
the spec's wording, kept separate from the source-derived
`StreamWriter.should_flush` to compare the two. -/
def spec_should_flush (buffered elapsed_ms batch_size timeout_ms : Nat) : Bool :=
  buffered ≥ batch_size || (buffered > 0 && elapsed_ms ≥ timeout_ms)

/-! ## Concrete fixtures used by witnesses and counterexamples -/

/-- A concrete write environment with a fixed uuid and clock reading. -/
def env0 : WriteEnv :=
  { serialize := fun _ => "su"
    ser_data := fun _ => "sd"
    ser_meta := fun _ => "sm"
    commit := fun _ => Except.ok ()
    uuid := "uuid0"
    now_ms := 1700 }

/-- A transaction update with no inner transaction info. -/
def tx0 : SubscribeUpdateTransaction :=
  { transaction := none, slot := 0, block_time := none }

/-- A failed transaction: meta present with `err` set. -/
def txF : SubscribeUpdateTransaction :=
  { transaction := some
      { signature := some "sigF"
        meta := some { err := some "InstructionError", fee := 5 }
        account_keys := ["A", "B"] }
    slot := 9
    block_time := none }

/-- A concrete block update. -/
def blk0 : SubscribeUpdateBlockData :=
  { slot := 7, blockhash := "bh", parent_slot := 6, parent_blockhash := "ph"
    block_time := none, executed_transaction_count := 2 }

/-- A concrete buffered stream entry. -/
def entry0 : StreamEntry :=
  { id := "uuid0:1700"
    data := { update_type := "transaction", payload := "su"
              account := none, transaction := none, block := none }
    timestamp := 1700
    metadata := { source := "chainstack-grpc", filter_id := "f"
                  processing_time_ns := 0, partition_key := none, tags := [] } }

/-- A writer holding one buffered entry, far below its batch size. -/
def w1 : StreamWriter :=
  { stream_name := "transactions"
    partition_strategy := PartitionStrategy.single
    max_length := some 5
    batch_buffer := [entry0]
    batch_size := 1000 }

/-- A writer whose stream config set no maximum length. -/
def wNoCap : StreamWriter :=
  { stream_name := "transactions"
    partition_strategy := PartitionStrategy.single
    max_length := none
    batch_buffer := [entry0]
    batch_size := 1000 }

/-- Concrete data serializer. -/
def sd0 : StreamData → String := fun _ => "x"

/-- Concrete metadata serializer. -/
def sm0 : StreamMetadata → String := fun _ => "y"

/-- A concrete filter with no identifier sets at all. -/
def df0 : DynamicFilter :=
  { id := "f0", account_filter := none, transaction_filter := none }

/-- A filter whose three OR-sets (accounts, owners, tx include) are all
present and empty. -/
def dfEmptySets : DynamicFilter :=
  { id := "empty-filter"
    account_filter := some { accounts := [], owners := [] }
    transaction_filter := some { accounts_include := [], accounts_required := [] } }

/-- A filter carrying one malformed account identifier. -/
def dfBadPk : DynamicFilter :=
  { id := "bad-filter"
    account_filter := some { accounts := ["not-a-pubkey"], owners := [] }
    transaction_filter := none }

/-! ## Helper lemmas on the writer map and the write path -/

lemma lookupWriter_single (key : String) (w : StreamWriter) :
    lookupWriter [(key, w)] key = some w := by
  simp [lookupWriter]

lemma updateWriter_single (key : String) (w w' : StreamWriter) :
    updateWriter [(key, w)] key w' = [(key, w')] := by
  simp [updateWriter]

/-- One `write_update` against a manager holding a single writer stored
under `key` with batch size 1000, when the update routes to `key` and the
commit succeeds: the entry is appended and the batch is flushed exactly
when the buffer reaches 1000 entries — the decision depends on nothing
but the buffer length. -/
lemma write_update_single_step (env : WriteEnv)
    (hc : env.commit = fun _ => Except.ok ())
    (key sn : String) (ps : PartitionStrategy) (ml : Option Nat)
    (bs : List StreamEntry) (hlen : bs.length < 1000)
    (u : SubscribeUpdate)
    (hu : determine_stream_name (extract_stream_data env.serialize u) = key)
    (fid : String) (p : Nat) :
    RedisStreamManager.write_update ⟨[(key, ⟨sn, ps, ml, bs, 1000⟩)]⟩ env u fid p
      = (Except.ok (),
         ⟨[(key, ⟨sn, ps, ml,
             if bs.length + 1 = 1000 then []
             else bs ++ [write_entry env u fid p],
             1000⟩)]⟩) := by
  by_cases h : bs.length + 1 = 1000
  · have hflush : (StreamWriter.should_flush
        ⟨sn, ps, ml, bs ++ [write_entry env u fid p], 1000⟩) = true := by
      simp [StreamWriter.should_flush]
      omega
    simp [RedisStreamManager.write_update, hu, lookupWriter_single,
      StreamWriter.add_entry, updateWriter_single, hflush,
      RedisStreamManager.flush_stream, StreamWriter.flush_to_redis, hc, h]
  · have hflush : (StreamWriter.should_flush
        ⟨sn, ps, ml, bs ++ [write_entry env u fid p], 1000⟩) = false := by
      simp [StreamWriter.should_flush]
      omega
    simp [RedisStreamManager.write_update, hu, lookupWriter_single,
      StreamWriter.add_entry, updateWriter_single, hflush, h]

/-- Rewriting an existing key in the filter map leaves the new filter
findable under its id. -/
lemma find_after_rewrite (fs : List (String × DynamicFilter)) (f : DynamicFilter)
    (h : (fs.find? fun q => q.1 == f.id).isSome) :
    ((fs.map fun q => if q.1 == f.id then (f.id, f) else q).find?
      fun q => q.1 == f.id) = some (f.id, f) := by
  induction fs with
  | nil => simp at h
  | cons hd tl ih =>
      by_cases hh : (hd.1 == f.id) = true
      · rw [List.map_cons, if_pos hh]
        simp [List.find?_cons]
      · have hh' : (hd.1 == f.id) = false := by simpa using hh
        rw [List.map_cons, if_neg hh]
        simp only [List.find?_cons, hh'] at h ⊢
        exact ih h

/-- Appending a fresh key to the filter map makes the new filter findable
under its id. -/
lemma find_append_new (fs : List (String × DynamicFilter)) (f : DynamicFilter)
    (h : (fs.find? fun q => q.1 == f.id) = none) :
    ((fs ++ [(f.id, f)]).find? fun q => q.1 == f.id) = some (f.id, f) := by
  induction fs with
  | nil => simp [List.find?_cons]
  | cons hd tl ih =>
      have hh' : (hd.1 == f.id) = false := by
        by_contra hcon
        have hh : (hd.1 == f.id) = true := by simpa using hcon
        simp only [List.find?_cons, hh] at h
        exact Option.noConfusion h
      rw [List.cons_append]
      simp only [List.find?_cons, hh'] at h ⊢
      exact ih h

/-- `insertFilter` installs the filter: it is findable under its id
afterwards. -/
lemma insertFilter_find (fs : List (String × DynamicFilter)) (f : DynamicFilter) :
    ((insertFilter fs f).find? fun q => q.1 == f.id) = some (f.id, f) := by
  unfold insertFilter
  by_cases h : (fs.find? fun q => q.1 == f.id).isSome
  · rw [if_pos h]
    exact find_after_rewrite fs f h
  · rw [if_neg h]
    exact find_append_new fs f (Option.not_isSome_iff_eq_none.mp h)

/-! ## Theorems -/

/-- C6 (amended): the create-filter endpoint rejects only an empty filter
id or an identifier failing pubkey parsing; a filter whose OR-sets
(accounts, owners, transaction-accounts-include) are all empty passes
validation and is installed (findable under its id); and a validation
failure is reported as HTTP 500 Internal Server Error, not 400. -/
theorem c6_validation_policy (pk : String → Bool)
    (fs : List (String × DynamicFilter)) (f : DynamicFilter) :
    (create_filter pk fs f = Except.ok (insertFilter fs f)
      ↔ (f.id.isEmpty = false ∧ filter_ids_valid pk f = true))
    ∧ ((f.id.isEmpty = true ∨ filter_ids_valid pk f = false) →
        create_filter pk fs f = Except.error 500)
    ∧ ((insertFilter fs f).find? fun q => q.1 == f.id) = some (f.id, f) := by
  refine ⟨?_, ?_, insertFilter_find fs f⟩
  · unfold create_filter add_filter validate_filter
    by_cases h1 : f.id.isEmpty
    · simp [h1]
    · by_cases h2 : filter_ids_valid pk f
      · simp [h1, h2]
      · simp [h1, h2]
  · intro h
    unfold create_filter add_filter validate_filter
    rcases h with h | h
    · simp [h]
    · by_cases h1 : f.id.isEmpty
      · simp [h1]
      · simp [h1, h]

/-- C6 witness: a malformed identifier yields HTTP 500 (discharging the
invalidity hypothesis concretely), and the all-empty-sets filter ends up
installed. -/
theorem c6_validation_policy_witness :
    create_filter (fun _ => false) [] dfBadPk = Except.error 500
    ∧ ((insertFilter [] dfEmptySets).find? fun q => q.1 == dfEmptySets.id)
      = some (dfEmptySets.id, dfEmptySets) :=
  ⟨(c6_validation_policy (fun _ => false) [] dfBadPk).2.1 (Or.inr (by decide)),
   (c6_validation_policy (fun _ => false) [] dfEmptySets).2.2⟩

/-- C6 counterexample: a filter whose accounts, owners and
transaction-accounts-include sets are all present and empty passes
validation and is installed (the claim says it must be rejected), and a
filter rejected for a malformed identifier gets HTTP 500, not the claimed
400. -/
theorem c6_counterexample :
    validate_filter (fun _ => false) dfEmptySets = Except.ok ()
    ∧ create_filter (fun _ => false) [] dfEmptySets
      = Except.ok [("empty-filter", dfEmptySets)]
    ∧ create_filter (fun _ => false) [] dfBadPk = Except.error 500 :=
  ⟨rfl, rfl, rfl⟩

/-- C1 (amended): the batch writer commits a buffered batch exactly when
the number of buffered records reaches `batch_size` (hard-coded 1000);
there is no timeout-based flush.  Over any run of `k` accepted
transaction records the writer flushes once per 1000 records and retains
the remaining `(initial + k) mod 1000` records in its buffer — the flush
decision is a function of the buffer length alone (no clock exists in the
write path). -/
theorem c1_flush_on_size_only (env : WriteEnv)
    (hc : env.commit = fun _ => Except.ok ())
    (sn : String) (ps : PartitionStrategy) (ml : Option Nat)
    (bs : List StreamEntry) (hlen : bs.length < 1000)
    (tx : SubscribeUpdateTransaction) (fid : String) (k : Nat) :
    ∃ bs' : List StreamEntry,
      process_updates env fid ⟨[("transactions", ⟨sn, ps, ml, bs, 1000⟩)]⟩
          (List.replicate k ⟨some (UpdateOneof.transaction tx)⟩)
        = ⟨[("transactions", ⟨sn, ps, ml, bs', 1000⟩)]⟩
      ∧ bs'.length = (bs.length + k) % 1000 := by
  induction k generalizing bs with
  | zero =>
      exact ⟨bs, rfl, (Nat.mod_eq_of_lt hlen).symm⟩
  | succ k ih =>
      rw [List.replicate_succ]
      have hu : determine_stream_name
          (extract_stream_data env.serialize ⟨some (UpdateOneof.transaction tx)⟩)
          = "transactions" := rfl
      have hstep := write_update_single_step env hc "transactions" sn ps ml bs hlen
        ⟨some (UpdateOneof.transaction tx)⟩ hu fid 0
      simp only [process_updates, hstep]
      by_cases h : bs.length + 1 = 1000
      · rw [if_pos h]
        obtain ⟨bs', heq, hlen'⟩ := ih [] (by norm_num)
        exact ⟨bs', heq, by rw [hlen']; simp; omega⟩
      · rw [if_neg h]
        obtain ⟨bs', heq, hlen'⟩ := ih
          (bs ++ [write_entry env ⟨some (UpdateOneof.transaction tx)⟩ fid 0])
          (by simp; omega)
        refine ⟨bs', heq, ?_⟩
        rw [hlen']
        simp
        omega

/-- C1 witness: three transaction records into an empty writer leave all
three buffered and uncommitted. -/
theorem c1_flush_on_size_only_witness :
    ∃ bs' : List StreamEntry,
      process_updates env0 "f"
          ⟨[("transactions",
            ⟨"transactions", PartitionStrategy.single, none, [], 1000⟩)]⟩
          (List.replicate 3 ⟨some (UpdateOneof.transaction tx0)⟩)
        = ⟨[("transactions",
            ⟨"transactions", PartitionStrategy.single, none, bs', 1000⟩)]⟩
      ∧ bs'.length = (([] : List StreamEntry).length + 3) % 1000 :=
  c1_flush_on_size_only env0 rfl "transactions" PartitionStrategy.single none []
    (by norm_num) tx0 "f" 3

/-- C1 counterexample: the claim's progress policy says a single buffered
record must be committed once 100 ms (the claimed default timeout) have
elapsed; the code's `should_flush` with one record buffered and 200 ms
elapsed still declines, because it compares the buffer length against
`batch_size` and nothing else — and the write path contains no other
flush trigger (processing one accepted record leaves it buffered, not
committed). -/
theorem c1_counterexample :
    ((RedisStreamManager.write_update
        ⟨[("transactions",
          ⟨"transactions", PartitionStrategy.single, some 5, [], 1000⟩)]⟩
        env0 ⟨some (UpdateOneof.transaction tx0)⟩ "f" 0).2.stream_writers.map
          (fun q => (q.1, q.2.batch_buffer.length)) = [("transactions", 1)])
    ∧ StreamWriter.should_flush w1 = false
    ∧ spec_should_flush 1 200 1000 100 = true := by
  refine ⟨rfl, by decide, by decide⟩

/-- C4 (amended): classification never discards an event.  Block and
BlockMeta events are classified (`update_type` "block" / "block_meta")
and routed to the `blocks` stream, events of unrecognized kind to the
`unknown` stream, and `write_update` buffers the resulting record for
that stream whenever a writer is configured for it (an event is dropped
only when no writer exists under its stream name). -/
theorem c4_blocks_routed_not_discarded (env : WriteEnv)
    (hc : env.commit = fun _ => Except.ok ())
    (blk : SubscribeUpdateBlockData) (sn : String) (ps : PartitionStrategy)
    (ml : Option Nat) (bs : List StreamEntry) (hlen : bs.length + 1 < 1000)
    (fid : String) (p : Nat) :
    determine_stream_name
        (extract_stream_data env.serialize ⟨some (UpdateOneof.block blk)⟩)
      = "blocks"
    ∧ determine_stream_name
        (extract_stream_data env.serialize ⟨some (UpdateOneof.blockMeta blk)⟩)
      = "blocks"
    ∧ determine_stream_name (extract_stream_data env.serialize ⟨some UpdateOneof.other⟩)
      = "unknown"
    ∧ determine_stream_name (extract_stream_data env.serialize ⟨none⟩) = "unknown"
    ∧ RedisStreamManager.write_update ⟨[("blocks", ⟨sn, ps, ml, bs, 1000⟩)]⟩ env
          ⟨some (UpdateOneof.block blk)⟩ fid p
        = (Except.ok (), ⟨[("blocks", ⟨sn, ps, ml,
            bs ++ [write_entry env ⟨some (UpdateOneof.block blk)⟩ fid p], 1000⟩)]⟩) := by
  refine ⟨rfl, rfl, rfl, rfl, ?_⟩
  rw [write_update_single_step env hc "blocks" sn ps ml bs (by omega)
    ⟨some (UpdateOneof.block blk)⟩ rfl fid p]
  rw [if_neg (by omega)]

/-- C4 witness: a concrete block update against a manager with a `blocks`
writer is appended to that writer's batch. -/
theorem c4_blocks_routed_not_discarded_witness :
    determine_stream_name
        (extract_stream_data env0.serialize ⟨some (UpdateOneof.block blk0)⟩)
      = "blocks"
    ∧ determine_stream_name
        (extract_stream_data env0.serialize ⟨some (UpdateOneof.blockMeta blk0)⟩)
      = "blocks"
    ∧ determine_stream_name (extract_stream_data env0.serialize ⟨some UpdateOneof.other⟩)
      = "unknown"
    ∧ determine_stream_name (extract_stream_data env0.serialize ⟨none⟩) = "unknown"
    ∧ RedisStreamManager.write_update
          ⟨[("blocks", ⟨"blocks", PartitionStrategy.single, none, [], 1000⟩)]⟩ env0
          ⟨some (UpdateOneof.block blk0)⟩ "f" 0
        = (Except.ok (), ⟨[("blocks", ⟨"blocks", PartitionStrategy.single, none,
            [] ++ [write_entry env0 ⟨some (UpdateOneof.block blk0)⟩ "f" 0], 1000⟩)]⟩) :=
  c4_blocks_routed_not_discarded env0 rfl blk0 "blocks" PartitionStrategy.single
    none [] (by norm_num) "f" 0

/-- C4 counterexample: a Block event does produce a record, and with a
`blocks` writer configured it is queued for the blocks topic — not
discarded as the claim states. -/
theorem c4_counterexample :
    (RedisStreamManager.write_update
        ⟨[("blocks", ⟨"blocks", PartitionStrategy.single, none, [], 1000⟩)]⟩
        env0 ⟨some (UpdateOneof.block blk0)⟩ "f" 0).2.stream_writers.map
          (fun q => (q.1, q.2.batch_buffer.length)) = [("blocks", 1)] := rfl

/-- C5 (amended): the transaction classification is the boolean `success`
flag: true exactly when `meta` is present with `err` absent, and false
both when `err` is present and when `meta` is absent (there is no
distinct Unknown value); the `error` string is carried exactly when
`meta.err` is present; and the update is emitted to the `transactions`
stream regardless of the flag — failed and meta-less transactions are
buffered for commit just like verified ones. -/
theorem c5_success_flag_no_filtering (env : WriteEnv)
    (hc : env.commit = fun _ => Except.ok ())
    (tx : SubscribeUpdateTransaction) (sn : String) (ps : PartitionStrategy)
    (ml : Option Nat) (bs : List StreamEntry) (hlen : bs.length + 1 < 1000)
    (fid : String) (p : Nat) :
    (∀ ti, (extract_stream_data env.serialize
          ⟨some (UpdateOneof.transaction tx)⟩).transaction = some ti →
        (ti.success = true ↔
          ∃ m, tx.transaction.bind TransactionData.meta = some m ∧ m.err = none)
        ∧ (tx.transaction.bind TransactionData.meta = none → ti.success = false)
        ∧ (ti.error = (tx.transaction.bind TransactionData.meta).bind TransactionMeta.err))
    ∧ RedisStreamManager.write_update
          ⟨[("transactions", ⟨sn, ps, ml, bs, 1000⟩)]⟩ env
          ⟨some (UpdateOneof.transaction tx)⟩ fid p
        = (Except.ok (), ⟨[("transactions", ⟨sn, ps, ml,
            bs ++ [write_entry env ⟨some (UpdateOneof.transaction tx)⟩ fid p],
            1000⟩)]⟩) := by
  constructor
  · intro ti hti
    simp only [extract_stream_data, Option.some.injEq] at hti
    subst hti
    refine ⟨?_, ?_, rfl⟩
    · cases hm : tx.transaction.bind TransactionData.meta with
      | none => simp [hm]
      | some m =>
          simp [hm, Option.isNone_iff_eq_none]
    · intro hm
      simp [hm]
  · rw [write_update_single_step env hc "transactions" sn ps ml bs (by omega)
      ⟨some (UpdateOneof.transaction tx)⟩ rfl fid p]
    rw [if_neg (by omega)]

/-- C5 witness: the failed transaction `txF` (meta.err present) is
classified `success = false` yet appended to the transactions batch. -/
theorem c5_success_flag_no_filtering_witness :
    (∀ ti, (extract_stream_data env0.serialize
          ⟨some (UpdateOneof.transaction txF)⟩).transaction = some ti →
        (ti.success = true ↔
          ∃ m, txF.transaction.bind TransactionData.meta = some m ∧ m.err = none)
        ∧ (txF.transaction.bind TransactionData.meta = none → ti.success = false)
        ∧ (ti.error = (txF.transaction.bind TransactionData.meta).bind TransactionMeta.err))
    ∧ RedisStreamManager.write_update
          ⟨[("transactions",
            ⟨"transactions", PartitionStrategy.single, none, [], 1000⟩)]⟩ env0
          ⟨some (UpdateOneof.transaction txF)⟩ "f" 0
        = (Except.ok (), ⟨[("transactions",
            ⟨"transactions", PartitionStrategy.single, none,
              [] ++ [write_entry env0 ⟨some (UpdateOneof.transaction txF)⟩ "f" 0],
              1000⟩)]⟩) :=
  c5_success_flag_no_filtering env0 rfl txF "transactions" PartitionStrategy.single
    none [] (by norm_num) "f" 0

/-- C5 counterexample: a transaction whose meta carries an error is
classified with the boolean `success = false` (no Unknown value exists)
and is still queued for the transactions topic — the claim says Failed
transactions are discarded rather than written. -/
theorem c5_counterexample :
    ((extract_stream_data env0.serialize
        ⟨some (UpdateOneof.transaction txF)⟩).transaction.map TransactionInfo.success
      = some false)
    ∧ ((RedisStreamManager.write_update
        ⟨[("transactions",
          ⟨"transactions", PartitionStrategy.single, none, [], 1000⟩)]⟩ env0
        ⟨some (UpdateOneof.transaction txF)⟩ "f" 0).2.stream_writers.map
          (fun q => (q.1, q.2.batch_buffer.length)) = [("transactions", 1)]) :=
  ⟨rfl, rfl⟩

/-- C2 (amended): the direct streaming path (`stream_to_redis_async`)
always issues its `XADD` with `MAXLEN ~ N` where
`N = max_stream_length.unwrap_or(1_000_000)`, and `with_redis_streaming`
configures `max_stream_length = Some(1_000_000)`; the batch writer path,
by contrast, adds `MAXLEN ~ max_length` only when the stream's
`max_length` is configured — a writer with `max_length = None` issues its
appends without any retention cap. -/
theorem c2_maxlen_policy (config : RedisConfig) (serialized stream_id : String)
    (now_ms : Int) (u s : String) (w : StreamWriter)
    (sd : StreamData → String) (sm : StreamMetadata → String) (n : Nat) :
    stream_to_redis_args config serialized stream_id now_ms
      = [config.stream_name, "MAXLEN", "~",
         toString (config.max_stream_length.getD 1000000),
         stream_id, "data", serialized, "timestamp", toString now_ms]
    ∧ (with_redis_streaming u s).max_stream_length = some 1000000
    ∧ (w.max_length = none →
        w.flush_cmds sd sm = w.batch_buffer.map fun e =>
          [w.stream_name, e.id, "data", sd e.data, "timestamp",
           toString e.timestamp, "metadata", sm e.metadata])
    ∧ (w.max_length = some n →
        w.flush_cmds sd sm = w.batch_buffer.map fun e =>
          [w.stream_name, "MAXLEN", "~", toString n, e.id, "data", sd e.data,
           "timestamp", toString e.timestamp, "metadata", sm e.metadata]) := by
  refine ⟨rfl, rfl, ?_, ?_⟩
  · intro h
    simp [StreamWriter.flush_cmds, xadd_args, h]
  · intro h
    simp [StreamWriter.flush_cmds, xadd_args, h]

/-- C2 witness: concrete instantiation — the capless writer `wNoCap`
produces an `XADD` without `MAXLEN`, while `w1` (cap 5) includes it. -/
theorem c2_maxlen_policy_witness :
    stream_to_redis_args (with_redis_streaming "redis://localhost:6379" "trade_data")
        "su" "uuid0:1700" 1700
      = [(with_redis_streaming "redis://localhost:6379" "trade_data").stream_name,
         "MAXLEN", "~",
         toString ((with_redis_streaming "redis://localhost:6379"
           "trade_data").max_stream_length.getD 1000000),
         "uuid0:1700", "data", "su", "timestamp", toString (1700 : Int)]
    ∧ (with_redis_streaming "redis://localhost:6379" "trade_data").max_stream_length
      = some 1000000
    ∧ StreamWriter.flush_cmds wNoCap sd0 sm0 = wNoCap.batch_buffer.map (fun e =>
        [wNoCap.stream_name, e.id, "data", sd0 e.data, "timestamp",
         toString e.timestamp, "metadata", sm0 e.metadata])
    ∧ StreamWriter.flush_cmds w1 sd0 sm0 = w1.batch_buffer.map (fun e =>
        [w1.stream_name, "MAXLEN", "~", toString (5 : Nat), e.id, "data", sd0 e.data,
         "timestamp", toString e.timestamp, "metadata", sm0 e.metadata]) :=
  ⟨(c2_maxlen_policy (with_redis_streaming "redis://localhost:6379" "trade_data")
      "su" "uuid0:1700" 1700 "redis://localhost:6379" "trade_data" wNoCap sd0 sm0 5).1,
   (c2_maxlen_policy (with_redis_streaming "redis://localhost:6379" "trade_data")
      "su" "uuid0:1700" 1700 "redis://localhost:6379" "trade_data" wNoCap sd0 sm0 5).2.1,
   (c2_maxlen_policy (with_redis_streaming "redis://localhost:6379" "trade_data")
      "su" "uuid0:1700" 1700 "redis://localhost:6379" "trade_data" wNoCap sd0 sm0 5).2.2.1 rfl,
   (c2_maxlen_policy (with_redis_streaming "redis://localhost:6379" "trade_data")
      "su" "uuid0:1700" 1700 "redis://localhost:6379" "trade_data" w1 sd0 sm0 5).2.2.2 rfl⟩

/-- C2 counterexample: the writer `wNoCap` (a stream whose config left
`max_length` unset) commits its batch through an `XADD` whose argument
list contains no `MAXLEN` token at all — an append without the retention
cap, which the claim says never happens. -/
theorem c2_counterexample :
    StreamWriter.flush_cmds wNoCap sd0 sm0
      = [["transactions", "uuid0:1700", "data", "x", "timestamp", "1700",
          "metadata", "y"]]
    ∧ "MAXLEN" ∉ (StreamWriter.flush_cmds wNoCap sd0 sm0).flatten := by
  refine ⟨rfl, by decide⟩

/-- C3 (amended): on a commit failure the batch writer performs no retry
and maintains no drop counter: the single attempt's error is returned to
the caller via `?` and the batch stays in the buffer untouched; on a
successful commit the buffer is cleared.  (The corresponding manager
methods `flush_stream` and `write_update` propagate that error to their
callers.) -/
theorem c3_no_retry_error_propagates (w : StreamWriter)
    (sd : StreamData → String) (sm : StreamMetadata → String)
    (commit : List (List String) → Except String Unit)
    (hne : w.batch_buffer ≠ []) :
    (∀ e, commit (w.flush_cmds sd sm) = Except.error e →
        w.flush_to_redis sd sm commit = (Except.error e, w))
    ∧ (commit (w.flush_cmds sd sm) = Except.ok () →
        w.flush_to_redis sd sm commit = (Except.ok (), { w with batch_buffer := [] })) := by
  constructor
  · intro e he
    unfold StreamWriter.flush_to_redis
    rw [if_neg (by simpa [List.isEmpty_iff] using hne), he]
  · intro hok
    unfold StreamWriter.flush_to_redis
    rw [if_neg (by simpa [List.isEmpty_iff] using hne), hok]

/-- C3 witness: concrete failing commit on the one-entry writer `w1`. -/
theorem c3_no_retry_error_propagates_witness :
    StreamWriter.flush_to_redis w1 sd0 sm0 (fun _ => Except.error "io error")
      = (Except.error "io error", w1) :=
  (c3_no_retry_error_propagates w1 sd0 sm0 (fun _ => Except.error "io error")
    (by decide)).1 "io error" rfl

/-- C3 counterexample: one failing commit makes `flush_to_redis` return
the error to its caller with the batch still buffered — there is no
backoff retry, no drop, and no "batch dropped" counter, contradicting the
claim that the writer absorbs the failure and continues. -/
theorem c3_counterexample :
    StreamWriter.flush_to_redis w1 sd0 sm0 (fun _ => Except.error "io")
      = (Except.error "io", w1)
    ∧ w1.batch_buffer.length = 1 := ⟨rfl, rfl⟩

/-- C7 (amended): every committed entry has id
`{uuid}:{ms}` (UUID first, millisecond timestamp second — not
`{ms}:{idx}`), and its fields map holds exactly the three keys `data`,
`timestamp` and `metadata` in that order (the batch path; the direct path
uses `data` and `timestamp`) — not the five split keys of the claim. -/
theorem c7_entry_schema (sn : String) (n : Nat) (e : StreamEntry)
    (dj mj : String) (env : WriteEnv) (update : SubscribeUpdate)
    (fid : String) (p : Nat) (config : RedisConfig)
    (serialized uuid : String) (now_ms : Int) :
    xadd_args sn (some n) e dj mj
      = [sn, "MAXLEN", "~", toString n, e.id, "data", dj, "timestamp",
         toString e.timestamp, "metadata", mj]
    ∧ xadd_args sn none e dj mj
      = [sn, e.id, "data", dj, "timestamp", toString e.timestamp, "metadata", mj]
    ∧ (write_entry env update fid p).id = env.uuid ++ ":" ++ toString env.now_ms
    ∧ stream_to_redis_async (some config) serialized uuid now_ms
      = [[config.stream_name, "MAXLEN", "~",
          toString (config.max_stream_length.getD 1000000),
          uuid ++ ":" ++ toString now_ms, "data", serialized, "timestamp",
          toString now_ms]] :=
  ⟨rfl, rfl, rfl, rfl⟩

/-- C7 counterexample: a concrete committed command carries none of the
claimed split field keys (`id-token`, `interest-id`, `classification`,
`ts`, `payload`) — its fields are `data`, `timestamp`, `metadata` — and a
concrete entry id puts the UUID before the timestamp, so it is not of the
form `{ms}:{idx}`. -/
theorem c7_counterexample :
    make_entry_id "3f2a" 1700 = "3f2a:1700"
    ∧ "id-token" ∉ xadd_args "transactions" (some 5) entry0 "x" "y"
    ∧ "interest-id" ∉ xadd_args "transactions" (some 5) entry0 "x" "y"
    ∧ "classification" ∉ xadd_args "transactions" (some 5) entry0 "x" "y"
    ∧ "ts" ∉ xadd_args "transactions" (some 5) entry0 "x" "y"
    ∧ "payload" ∉ xadd_args "transactions" (some 5) entry0 "x" "y"
    ∧ xadd_args "transactions" (some 5) entry0 "x" "y"
      = ["transactions", "MAXLEN", "~", "5", "uuid0:1700", "data", "x",
         "timestamp", "1700", "metadata", "y"] := by
  refine ⟨rfl, by decide, by decide, by decide, by decide, by decide, rfl⟩

/-- C8: publishing to the broadcast bus with zero subscribers is a no-op —
no send is attempted and both counters are unchanged, whatever outcome the
channel would have reported. -/
theorem c8_publish_no_subscribers_noop
    (send_result : Except String Nat) (m : Metrics) :
    publish_data 0 send_result m = (m, false) := rfl

/-- C9 (amended): with `page ≥ 1`, whenever the pagination arithmetic
does not wrap the `usize` width — `(page-1)*per_page < 2^64` and
`start + per_page < 2^64` — the bounds `start ≤ stop ≤ total` hold, the
handler returns the in-bounds slice with the correct total, and the page
holds at most `per_page` filters.  (For `per_page` large enough to wrap
the addition, `end` falls below `start` and the slice panics; see the
counterexample.) -/
theorem c9_pagination_in_bounds (filters : List DynamicFilter)
    (page per_page : Nat) (_h : 1 ≤ page)
    (hmul : (page - 1) * per_page < USIZE)
    (hadd : min ((page - 1) * per_page) filters.length + per_page < USIZE) :
    min (((page - 1) * per_page) % USIZE) filters.length
      ≤ min ((min (((page - 1) * per_page) % USIZE) filters.length + per_page)
          % USIZE) filters.length
    ∧ min ((min (((page - 1) * per_page) % USIZE) filters.length + per_page)
          % USIZE) filters.length ≤ filters.length
    ∧ list_filters_page filters page per_page
      = some ((filters.drop
            (min (((page - 1) * per_page) % USIZE) filters.length)).take
          (min ((min (((page - 1) * per_page) % USIZE) filters.length + per_page)
              % USIZE) filters.length
            - min (((page - 1) * per_page) % USIZE) filters.length),
          filters.length)
    ∧ ((filters.drop
          (min (((page - 1) * per_page) % USIZE) filters.length)).take
        (min ((min (((page - 1) * per_page) % USIZE) filters.length + per_page)
            % USIZE) filters.length
          - min (((page - 1) * per_page) % USIZE) filters.length)).length
      ≤ per_page := by
  have e1 : ((page - 1) * per_page) % USIZE = (page - 1) * per_page :=
    Nat.mod_eq_of_lt hmul
  have e2 : (min ((page - 1) * per_page) filters.length + per_page) % USIZE
      = min ((page - 1) * per_page) filters.length + per_page :=
    Nat.mod_eq_of_lt hadd
  have h1 : min ((page - 1) * per_page) filters.length ≤ filters.length :=
    Nat.min_le_right _ _
  have h2 : min ((page - 1) * per_page) filters.length
      ≤ min (min ((page - 1) * per_page) filters.length + per_page)
          filters.length :=
    Nat.le_min.mpr ⟨Nat.le_add_right _ _, h1⟩
  rw [e1, e2]
  refine ⟨h2, Nat.min_le_right _ _, ?_, ?_⟩
  · simp only [list_filters_page, e1, e2]
    rw [if_pos h2]
  · simp only [List.length_take, List.length_drop]
    omega

/-- C9 witness: at `page = 1`, `per_page = 20` and a two-element filter
list the arithmetic does not wrap and the handler returns both filters
with total 2. -/
theorem c9_pagination_in_bounds_witness :
    list_filters_page [df0, df0] 1 20 = some ([df0, df0], 2) := by
  have h := c9_pagination_in_bounds [df0, df0] 1 20 (by decide) (by decide)
    (by decide)
  exact h.2.2.1.trans (by decide)

/-- C9 counterexample: with five filters installed, `page = 2` and
`per_page = 2^64 - 4` (a value the query string can supply), the wrapped
arithmetic gives `start = 5` but `end = (5 + per_page) mod 2^64 = 1 < 5`,
so `filters[start..end]` panics — the claimed `start ≤ end ≤ total`
in-bounds slice fails in the program for this `per_page`. -/
theorem c9_counterexample :
    min (((2 - 1) * (USIZE - 4)) % USIZE) (List.replicate 5 df0).length = 5
    ∧ ((min (((2 - 1) * (USIZE - 4)) % USIZE) (List.replicate 5 df0).length
        + (USIZE - 4)) % USIZE) = 1
    ∧ list_filters_page (List.replicate 5 df0) 2 (USIZE - 4) = none := by
  refine ⟨by decide, by decide, by decide⟩

/-- C10: the slot-range endpoint returns `400 Bad Request` without any
store query whenever the collection type is unrecognized or the range is
inverted, and every query it does issue carries the effective limit
`min(limit.unwrap_or(1000), 10000)`, never above 10,000. -/
theorem c10_slot_range_validation (program collection_type : String)
    (min_slot max_slot : Nat) (limit : Option Nat) :
    ((collection_type ≠ "accounts" ∧ collection_type ≠ "instructions")
          ∨ min_slot > max_slot →
        get_data_by_slot_range program collection_type min_slot max_slot limit
          = SlotRangeResult.badRequest)
    ∧ (∀ p c mn mx l,
        get_data_by_slot_range program collection_type min_slot max_slot limit
          = SlotRangeResult.query p c mn mx l →
        l = min (limit.getD 1000) 10000 ∧ l ≤ 10000) := by
  constructor
  · intro hbad
    unfold get_data_by_slot_range
    rcases hbad with h | h
    · simp [h]
    · rcases Decidable.em
        (collection_type ≠ "accounts" ∧ collection_type ≠ "instructions") with hc | hc
      · simp [hc]
      · simp [hc, h]
  · intro p c mn mx l hq
    unfold get_data_by_slot_range at hq
    split at hq
    · exact absurd hq (by simp)
    · split at hq
      · exact absurd hq (by simp)
      · injection hq with h1 h2 h3 h4 h5
        exact ⟨h5.symm, h5 ▸ Nat.min_le_right _ _⟩

/-- C10 witness: an inverted slot range on `accounts` is rejected with
400, and a request for 50,000 records on a valid range is capped to
10,000. -/
theorem c10_slot_range_validation_witness :
    get_data_by_slot_range "pump_fun" "accounts" 5 3 none
        = SlotRangeResult.badRequest
    ∧ ((10000 : Nat) = min ((some 50000 : Option Nat).getD 1000) 10000
        ∧ (10000 : Nat) ≤ 10000) :=
  ⟨(c10_slot_range_validation "pump_fun" "accounts" 5 3 none).1 (by decide),
   (c10_slot_range_validation "pump_fun" "instructions" 3 5 (some 50000)).2
     "pump_fun" "instructions" 3 5 10000 (by decide)⟩

end Vixen
